import Mathlib

/-!
Shallow embedding of the `ctfsys/backend` hackersvc core: the domain
service (`basicService.Ping`), the error-string codec (`err2str` /
`str2err`), the transport adapters (HTTP error encoder and response
decoder, Thrift server and client endpoints) and the endpoint middleware
chains, together with theorems settling the frozen claims about them.

Go errors are modelled as `Option GoError`: `none` is the nil error;
`GoError.isSentinel` models Go interface identity with the unique
sentinel value `ErrRandomFailure` (errors created by `errors.New` at
other sites never compare identical to the sentinel, whatever their
message).
-/

/-- Model of a Go `error` value: its message (`Error()` string) and
whether it is the identical sentinel value `hackerservice.ErrRandomFailure`
(Go compares errors by interface identity, not by message). -/
structure GoError where
  msg : String
  isSentinel : Bool
deriving DecidableEq

/-- The sentinel domain error `hackerservice.ErrRandomFailure`
(`errors.New("random failure")`, set.go line 124 of the concatenated
source). -/
def ErrRandomFailure : GoError := ⟨"random failure", true⟩

/-- `hackerendpoint.PingResponse` (set.go lines 85-88): payload `P` and
an optional domain error `Err`. -/
structure PingResponse where
  P : String
  Err : Option GoError
deriving DecidableEq

/-- `err2str` (thrift.go lines 232-237): a nil error encodes to `""`,
a non-nil error encodes to its message. -/
def err2str (e : Option GoError) : String :=
  match e with
  | none => ""
  | some er => er.msg

/-- `str2err` (thrift.go lines 225-230): `""` decodes to nil, a
non-empty string `s` decodes to `errors.New(s)`, a fresh non-sentinel
error with message `s`. -/
def str2err (s : String) : Option GoError :=
  if s = "" then none else some ⟨s, false⟩

/-- The compile-time constant `failureRate = 0.1` (set.go line 137).
Go untyped-constant arithmetic is exact, so it is modelled as the
rational 1/10. -/
def failureRate : ℚ := 1 / 10

/-- Result of `Service.Ping`: payload string and error. -/
structure PingResult where
  p : String
  err : Option GoError
deriving DecidableEq

/-- `basicService.Ping` (set.go lines 145-155), with the random draw
`rand.Int63() % 100` abstracted as the residue `n` in `[0,100)`:
fails with `ErrRandomFailure` when `n < failureRate * 100`, returns
`"pong"` otherwise. -/
def basicService.Ping (n : ℕ) : PingResult :=
  if (n : ℚ) < failureRate * 100 then ⟨"", some ErrRandomFailure⟩
  else ⟨"pong", none⟩

theorem ping_cond (n : ℕ) : ((n : ℚ) < failureRate * 100) ↔ n < 10 := by
  have h : failureRate * 100 = (10 : ℚ) := by norm_num [failureRate]
  rw [h]
  exact_mod_cast Iff.rfl

/-- C1: for a uniform residue n in [0,100), `basicService.Ping` returns
payload "pong" with nil error exactly when `failureRate * 100 ≤ n`, and
the empty payload with the sentinel `ErrRandomFailure` exactly when
`n < failureRate * 100`; exactly `failureRate` of the 100 residues fail,
and `failureRate` lies in [0,1]. -/
theorem C1_ping_failure_rate (n : ℕ) (h : n < 100) :
    (basicService.Ping n = ⟨"pong", none⟩ ↔ failureRate * 100 ≤ (n : ℚ))
    ∧ (basicService.Ping n = ⟨"", some ErrRandomFailure⟩ ↔ (n : ℚ) < failureRate * 100)
    ∧ ((((Finset.range 100).filter
          (fun k => (basicService.Ping k).err ≠ none)).card : ℚ) / 100 = failureRate)
    ∧ 0 ≤ failureRate ∧ failureRate ≤ 1 := by
  have hcard : ((Finset.range 100).filter
      (fun k => (basicService.Ping k).err ≠ none)).card = 10 := by
    have hp : ∀ k : ℕ, ((basicService.Ping k).err ≠ none) ↔ k < 10 := by
      intro k
      by_cases hk : (k : ℚ) < failureRate * 100
      · simp [basicService.Ping, hk, (ping_cond k).mp hk]
      · have : ¬ k < 10 := fun hlt => hk ((ping_cond k).mpr hlt)
        simp [basicService.Ping, hk, this]
    have : (Finset.range 100).filter (fun k => (basicService.Ping k).err ≠ none)
        = (Finset.range 100).filter (fun k => k < 10) := by
      apply Finset.filter_congr
      intro k _
      simp [hp k]
    rw [this]
    decide
  refine ⟨?_, ?_, ?_, by norm_num [failureRate], by norm_num [failureRate]⟩
  · by_cases hk : (n : ℚ) < failureRate * 100
    · simp only [basicService.Ping, if_pos hk]
      constructor
      · intro he
        exact absurd (congrArg PingResult.p he) (by simp)
      · intro hle
        exact absurd hk (not_lt.mpr hle)
    · simp only [basicService.Ping, if_neg hk]
      constructor
      · intro _
        exact le_of_not_lt hk
      · intro _
        trivial
  · by_cases hk : (n : ℚ) < failureRate * 100
    · simp only [basicService.Ping, if_pos hk]
      exact ⟨fun _ => hk, fun _ => by trivial⟩
    · simp only [basicService.Ping, if_neg hk]
      constructor
      · intro he
        exact absurd (congrArg PingResult.p he) (by simp)
      · intro hlt
        exact absurd hlt hk
  · rw [hcard]
    norm_num [failureRate]

/-- Witness for C1 at the concrete residue n = 42. -/
theorem C1_ping_failure_rate_witness :
    42 < 100 ∧ (basicService.Ping 42 = ⟨"pong", none⟩ ↔ failureRate * 100 ≤ (42 : ℚ)) :=
  ⟨by decide, (C1_ping_failure_rate 42 (by decide)).1⟩

/-- C2: the error-string codec round-trips: `err2str none = ""`,
`str2err "" = none`, and for every non-nil error with a non-empty
message, decode-after-encode yields a non-nil error with the same
message (message equality only, not identity). -/
theorem C2_err_string_roundtrip (e : GoError) (h : e.msg ≠ "") :
    err2str none = "" ∧ str2err "" = none
    ∧ ∃ e2 : GoError, str2err (err2str (some e)) = some e2 ∧ e2.msg = e.msg := by
  refine ⟨rfl, rfl, ⟨e.msg, false⟩, ?_, rfl⟩
  simp [err2str, str2err, h]

/-- Witness for C2 at the concrete error with message "random failure". -/
theorem C2_err_string_roundtrip_witness :
    ErrRandomFailure.msg ≠ ""
    ∧ (err2str none = "" ∧ str2err "" = none
       ∧ ∃ e2 : GoError, str2err (err2str (some ErrRandomFailure)) = some e2
          ∧ e2.msg = ErrRandomFailure.msg) :=
  ⟨by decide, C2_err_string_roundtrip ErrRandomFailure (by decide)⟩

/-- C10: a non-nil error with an empty message encodes to `""`, so
decode-after-encode yields nil: the wire cannot distinguish an
empty-message error from no error. -/
theorem C10_empty_message_collapses (e : GoError) (h : e.msg = "") :
    err2str (some e) = "" ∧ str2err (err2str (some e)) = none := by
  constructor
  · simp [err2str, h]
  · simp [err2str, str2err, h]

/-- Witness for C10 at the concrete non-nil error with empty message. -/
theorem C10_empty_message_collapses_witness :
    (⟨"", false⟩ : GoError).msg = ""
    ∧ (err2str (some ⟨"", false⟩) = "" ∧ str2err (err2str (some ⟨"", false⟩)) = none) :=
  ⟨rfl, C10_empty_message_collapses ⟨"", false⟩ rfl⟩

/-- The generated Thrift reply struct `hackerthrift.PingReply`
(fields `Value` and `Err`, both strings on the wire). -/
structure ThriftPingReply where
  Value : String
  Err : String
deriving DecidableEq

/-- `thriftServer.Ping` (thrift.go lines 32-41): the endpoint result is
either an error, which is returned on the Thrift error channel, or a
`PingResponse`, whose domain error is encoded into the reply string
field via `err2str`. -/
def thriftServer.Ping (endpointResult : Except GoError PingResponse) :
    Except GoError ThriftPingReply :=
  match endpointResult with
  | .error e => .error e
  | .ok resp => .ok ⟨resp.P, err2str resp.Err⟩

/-- `MakeThriftPingEndpoint` (thrift.go lines 80-91): the generated
client call returns a reply struct and a transport error `terr`; the
sentinel is returned on the error channel when `terr` is identically
`ErrRandomFailure`, and otherwise the endpoint returns
`PingResponse{P: reply.Value, Err: terr}` — the reply string field
`Err` is never decoded. -/
def MakeThriftPingEndpoint (reply : ThriftPingReply) (terr : Option GoError) :
    Except GoError PingResponse :=
  match terr with
  | some e => if e = ErrRandomFailure then .error e else .ok ⟨reply.Value, some e⟩
  | none => .ok ⟨reply.Value, none⟩

/-- C3 counterexample: a Thrift reply carrying the non-empty error
string "boom", received with no transport error, decodes to a
`PingResponse` with nil `Err` — not to a non-nil domain error with
message "boom" as the claim requires. -/
theorem C3_decode_counterexample :
    MakeThriftPingEndpoint ⟨"pong", "boom"⟩ none = .ok ⟨"pong", none⟩
    ∧ ¬ ∃ e : GoError, MakeThriftPingEndpoint ⟨"pong", "boom"⟩ none = .ok ⟨"pong", some e⟩ := by
  refine ⟨rfl, ?_⟩
  rintro ⟨e, he⟩
  simp [MakeThriftPingEndpoint] at he

/-- C3 amended: the empty-string-means-nil convention is enforced at
encode — the Thrift server writes `err2str` of the domain error into
the reply string field (so nil encodes to `""` and a non-nil error to
its message) — but the Thrift client does not decode that field: with
no transport error it always produces a `PingResponse` with nil `Err`,
whatever string the reply carries. -/
theorem C3_thrift_error_channel :
    (∀ p e, thriftServer.Ping (.ok ⟨p, e⟩) = .ok ⟨p, err2str e⟩)
    ∧ (∀ p, thriftServer.Ping (.ok ⟨p, none⟩) = .ok ⟨p, ""⟩)
    ∧ (∀ p er, thriftServer.Ping (.ok ⟨p, some er⟩) = .ok ⟨p, er.msg⟩)
    ∧ (∀ ge, thriftServer.Ping (.error ge) = .error ge)
    ∧ (∀ reply, MakeThriftPingEndpoint reply none = .ok ⟨reply.Value, none⟩) :=
  ⟨fun _ _ => rfl, fun _ => rfl, fun _ _ => rfl, fun _ => rfl, fun _ => rfl⟩

/-- The JSON error body `errorWrapper` (http.go lines 117-119): the
object written as the error response body, with single field
`error` carrying the message. -/
structure errorWrapper where
  Error : String
deriving DecidableEq

/-- `err2code` (http.go lines 98-106): the identical sentinel
`ErrRandomFailure` maps to 418 (StatusTeapot); every other error maps
to 500 (StatusInternalServerError). -/
def err2code (e : GoError) : ℕ :=
  if e = ErrRandomFailure then 418 else 500

/-- `errorEncoder` (http.go lines 93-96): writes the status code from
`err2code` and the JSON body `errorWrapper{Error: err.Error()}`. -/
def errorEncoder (e : GoError) : ℕ × errorWrapper :=
  (err2code e, ⟨e.msg⟩)

/-- C4: the HTTP error encoder maps the sentinel to the distinctive
client-style code 418 (a 4xx, not 500) and every other error to 500,
and in both cases the body object carries the error message in its
`error` field. -/
theorem C4_error_encoder :
    ((errorEncoder ErrRandomFailure).1 = 418
      ∧ 400 ≤ (errorEncoder ErrRandomFailure).1
      ∧ (errorEncoder ErrRandomFailure).1 < 500
      ∧ (errorEncoder ErrRandomFailure).1 ≠ 500)
    ∧ (∀ e : GoError, e ≠ ErrRandomFailure → (errorEncoder e).1 = 500)
    ∧ (∀ e : GoError, (errorEncoder e).2.Error = e.msg) := by
  refine ⟨⟨rfl, by decide, by decide, by decide⟩, ?_, fun _ => rfl⟩
  intro e he
  simp [errorEncoder, err2code, he]

/-- Witness for C4 at the concrete non-sentinel error "boom". -/
theorem C4_error_encoder_witness :
    (⟨"boom", false⟩ : GoError) ≠ ErrRandomFailure
    ∧ (errorEncoder ⟨"boom", false⟩).1 = 500 :=
  ⟨by decide, C4_error_encoder.2.1 ⟨"boom", false⟩ (by decide)⟩

/-- The endpoint middlewares wired in this repository. `traceServer` and
`traceClient` are the opentracing middlewares; `endpointLogging` and
`endpointInstrumenting` are the endpoint-level logging and duration
middlewares applied in `hackerendpoint.New`. -/
inductive EndpointMiddleware where
  | rateLimiter
  | circuitBreaker
  | traceServer
  | traceClient
  | endpointLogging
  | endpointInstrumenting
deriving DecidableEq

/-- Middleware chain of the server-side `hackerendpoint.New` (set.go
lines 37-45), listed innermost (applied first, directly around
`MakePingEndpoint`) to outermost, one list entry per wrapping
assignment in source order. -/
def hackerendpointNew.chain : List EndpointMiddleware :=
  [.rateLimiter, .circuitBreaker, .traceServer, .endpointLogging, .endpointInstrumenting]

/-- Middleware chain of `NewHTTPClient` (http.go lines 65-80), listed
innermost to outermost: the opentracing client middleware is applied
first, directly around the transport endpoint, then the rate limiter,
then the circuit breaker outermost. -/
def NewHTTPClient.chain : List EndpointMiddleware :=
  [.traceClient, .rateLimiter, .circuitBreaker]

/-- Middleware chain of `NewGRPCClient` (thrift.go lines 162-179 of the
concatenated source), listed innermost to outermost. -/
def NewGRPCClient.chain : List EndpointMiddleware :=
  [.traceClient, .rateLimiter, .circuitBreaker]

/-- Middleware chain of `NewThriftClient` (thrift.go lines 59-67),
listed innermost to outermost: only the rate limiter and the circuit
breaker, no tracing middleware at all. -/
def NewThriftClient.chain : List EndpointMiddleware :=
  [.rateLimiter, .circuitBreaker]

/-- C5 counterexample: no client chain is rate limiter, then circuit
breaker, then tracing (innermost to outermost), as the claim states. -/
theorem C5_client_chain_counterexample :
    NewHTTPClient.chain ≠ [.rateLimiter, .circuitBreaker, .traceClient]
    ∧ NewGRPCClient.chain ≠ [.rateLimiter, .circuitBreaker, .traceClient]
    ∧ NewThriftClient.chain ≠ [.rateLimiter, .circuitBreaker, .traceClient] := by
  decide

/-- C5 amended: in the HTTP and gRPC clients the chain, innermost to
outermost, is tracing, then rate limiter, then circuit breaker; the
Thrift client applies only the rate limiter then the circuit breaker,
with no tracing; and no client chain contains logging or
instrumentation middleware. -/
theorem C5_client_chains :
    NewHTTPClient.chain = [.traceClient, .rateLimiter, .circuitBreaker]
    ∧ NewGRPCClient.chain = [.traceClient, .rateLimiter, .circuitBreaker]
    ∧ NewThriftClient.chain = [.rateLimiter, .circuitBreaker]
    ∧ (∀ mw ∈ NewHTTPClient.chain ++ NewGRPCClient.chain ++ NewThriftClient.chain,
        mw ≠ EndpointMiddleware.endpointLogging ∧ mw ≠ EndpointMiddleware.endpointInstrumenting) := by
  decide

/-- Observable state threaded through one call of an endpoint stack:
the rate-limiter token count, a simplified circuit-breaker state,
and counters for spans started, endpoint-level log records, duration
observations, and invocations of the innermost base endpoint. -/
structure MWState where
  tokens : ℕ
  breakerFails : ℕ
  breakerIsOpen : Bool
  spans : ℕ
  logs : ℕ
  durations : ℕ
  innerCalls : ℕ
deriving DecidableEq

/-- An endpoint: one call mapping the observable state to a result and
an updated state (the Go `endpoint.Endpoint` restricted to the Ping
request, with its side effects made explicit). -/
def Endpoint : Type := MWState → Except GoError PingResponse × MWState

/-- Semantics of one middleware wrapping. Modelled from the spec: the
middleware bodies live in libraries or files outside src (go-kit
ratelimit.NewErroringLimiter, sony/gobreaker, go-kit opentracing
Trace{Server,Client}, and hackerendpoint.LoggingMiddleware /
InstrumentingMiddleware): the erroring limiter rejects immediately with
an admission error when no token is available, otherwise consumes one
token and calls through; the breaker rejects immediately without
calling through when open, and otherwise counts consecutive failures
(library default threshold: more than 5 trips it); tracing starts a
span around the call; logging and instrumentation record exactly one
log record and one duration observation after the call completes,
whatever its outcome. -/
def applyMW : EndpointMiddleware → Endpoint → Endpoint
  | .rateLimiter, next => fun s =>
      if s.tokens = 0 then (.error ⟨"rate limit exceeded", false⟩, s)
      else next { s with tokens := s.tokens - 1 }
  | .circuitBreaker, next => fun s =>
      if s.breakerIsOpen then (.error ⟨"circuit breaker is open", false⟩, s)
      else
        let r := next s
        match r.1 with
        | .ok v => (.ok v, { r.2 with breakerFails := 0 })
        | .error e => (.error e,
            { r.2 with breakerFails := r.2.breakerFails + 1,
                       breakerIsOpen := decide (5 < r.2.breakerFails + 1) })
  | .traceServer, next => fun s => next { s with spans := s.spans + 1 }
  | .traceClient, next => fun s => next { s with spans := s.spans + 1 }
  | .endpointLogging, next => fun s =>
      let r := next s
      (r.1, { r.2 with logs := r.2.logs + 1 })
  | .endpointInstrumenting, next => fun s =>
      let r := next s
      (r.1, { r.2 with durations := r.2.durations + 1 })

/-- Applies a chain of middlewares, innermost first, around a base
endpoint — the shape of the wrapping blocks in set.go, http.go and
thrift.go. -/
def applyChain (mws : List EndpointMiddleware) (base : Endpoint) : Endpoint :=
  mws.foldl (fun ep mw => applyMW mw ep) base

/-- `MakePingEndpoint` (set.go lines 64-72): invokes `svc.Ping` — whose
result is abstracted as the parameter `res` — and returns
`PingResponse{P: p, Err: err}` with a nil endpoint error, always. -/
def MakePingEndpoint (res : PingResult) : Endpoint :=
  fun s => (.ok ⟨res.p, res.err⟩, { s with innerCalls := s.innerCalls + 1 })

/-- The fully decorated server-side Ping endpoint built by
`hackerendpoint.New` (set.go lines 31-50). -/
def serverPingEndpoint (res : PingResult) : Endpoint :=
  applyChain hackerendpointNew.chain (MakePingEndpoint res)

/-- C8: the server-side base endpoint built by `MakePingEndpoint`
returns a nil endpoint error for every service result and every state:
a domain failure (the sentinel included) is carried only inside
`PingResponse.Err`, never on the endpoint error channel. -/
theorem C8_endpoint_error_channel_nil (res : PingResult) (s : MWState) :
    (MakePingEndpoint res s).1 = .ok ⟨res.p, res.err⟩
    ∧ ∀ ge : GoError, (MakePingEndpoint res s).1 ≠ .error ge := by
  exact ⟨rfl, fun ge h => by simp [MakePingEndpoint] at h⟩

/-- C6: one call of the fully decorated server endpoint produces
exactly one endpoint-level log record and exactly one duration
observation, for every service result and every starting state —
including states where the rate limiter rejects (no tokens), where the
circuit breaker rejects (open), and calls whose service result is the
sentinel failure — because logging and instrumentation sit outermost
in the chain of `hackerendpoint.New`. -/
theorem C6_server_logged_once (res : PingResult) (s : MWState) :
    (serverPingEndpoint res s).2.logs = s.logs + 1
    ∧ (serverPingEndpoint res s).2.durations = s.durations + 1
    ∧ hackerendpointNew.chain
        = [.rateLimiter, .circuitBreaker, .traceServer, .endpointLogging, .endpointInstrumenting] := by
  refine ⟨?_, ?_, rfl⟩ <;>
  · simp only [serverPingEndpoint, applyChain, List.foldl, applyMW, MakePingEndpoint]
    by_cases hb : s.breakerIsOpen <;> by_cases ht : s.tokens = 0 <;> simp [hb, ht]

/-- The Go `http.Response` fields consulted by the HTTP client decoder:
the numeric status code, the status text line, and the raw body. -/
structure HTTPResponse where
  statusCode : ℕ
  status : String
  body : String
deriving DecidableEq

/-- `decodeHTTPPingResponse` (http.go lines 135-143): on any non-200
status it returns `errors.New(r.Status)` — a fresh error carrying the
status text — without touching the body; only on 200 is the body
JSON-decoded, abstracted here as the parameter `parseBody`. -/
def decodeHTTPPingResponse (parseBody : String → Except GoError PingResponse)
    (r : HTTPResponse) : Except GoError PingResponse :=
  if r.statusCode ≠ 200 then .error ⟨r.status, false⟩
  else parseBody r.body

/-- C9: for every non-200 response the HTTP client decoder returns an
error whose message is the HTTP status text, and the result is
independent of the response body and of the JSON body parser — so the
server-written JSON error message is never read and never propagated. -/
theorem C9_non200_ignores_body (parseBody : String → Except GoError PingResponse)
    (r : HTTPResponse) (h : r.statusCode ≠ 200) :
    decodeHTTPPingResponse parseBody r = .error ⟨r.status, false⟩
    ∧ (∀ parseBody2 body2,
        decodeHTTPPingResponse parseBody2 { r with body := body2 }
          = decodeHTTPPingResponse parseBody r) := by
  constructor
  · simp [decodeHTTPPingResponse, h]
  · intro parseBody2 body2
    simp [decodeHTTPPingResponse, h]

/-- Witness for C9 at the concrete 418 response whose body carries the
server-written sentinel message. -/
theorem C9_non200_ignores_body_witness :
    (418 : ℕ) ≠ 200
    ∧ decodeHTTPPingResponse (fun _ => .ok ⟨"", none⟩)
        ⟨418, "418 status text", "error body"⟩ = .error ⟨"418 status text", false⟩ :=
  ⟨by decide,
   (C9_non200_ignores_body (fun _ => .ok ⟨"", none⟩)
      ⟨418, "418 status text", "error body"⟩ (by decide)).1⟩

/-- Modelled from the spec: the sony/gobreaker circuit breaker wired
around each endpoint (set.go line 41, thrift.go lines 63-66 and
175-178); the library itself is not under src. Configuration: the
consecutive-failure threshold N and the reset timeout. -/
structure CircuitBreaker where
  threshold : ℕ
  timeout : ℕ
deriving DecidableEq

/-- Modelled from the spec: the three breaker states — closed with its
consecutive-failure count, open with the time it opened, and half-open
during the single trial call. -/
inductive CBState where
  | closed (consecutiveFailures : ℕ)
  | opened (openedAt : ℕ)
  | halfOpen
deriving DecidableEq

/-- Modelled from the spec: admission decision at the start of a call —
closed admits; open admits (moving to half-open) only once the timeout
has elapsed; a concurrent competitor arriving while the single
half-open trial is in flight is rejected. Returns (admitted, state seen
by the call). -/
def CircuitBreaker.beforeCall (cb : CircuitBreaker) (st : CBState) (now : ℕ) :
    Bool × CBState :=
  match st with
  | .closed f => (true, .closed f)
  | .opened t => if t + cb.timeout ≤ now then (true, .halfOpen) else (false, .opened t)
  | .halfOpen => (false, .halfOpen)

/-- Modelled from the spec: state transition after an admitted call
completes — success resets closed (and closes a half-open breaker);
a failure in closed increments the consecutive-failure count, tripping
to open at the threshold; a failure in half-open reopens. -/
def CircuitBreaker.afterCall (cb : CircuitBreaker) (st : CBState) (now : ℕ)
    (success : Bool) : CBState :=
  match st with
  | .closed f =>
      if success then .closed 0
      else if cb.threshold ≤ f + 1 then .opened now else .closed (f + 1)
  | .opened t => .opened t
  | .halfOpen => if success then .closed 0 else .opened now

/-- One call through the breaker around a wrapped endpoint whose
outcome, if it is invoked, is `innerSucceeds`. Returns (wrapped
endpoint invoked, call result, new breaker state). -/
def CircuitBreaker.call (cb : CircuitBreaker) (st : CBState) (now : ℕ)
    (innerSucceeds : Bool) : Bool × Except GoError Unit × CBState :=
  let pre := cb.beforeCall st now
  if pre.1 then
    (true,
     if innerSucceeds then .ok () else .error ⟨"inner failure", false⟩,
     cb.afterCall pre.2 now innerSucceeds)
  else
    (false, .error ⟨"circuit breaker is open", false⟩, pre.2)

/-- Runs a sequence of calls, each given as (time, wrapped-endpoint
outcome), threading the breaker state and counting invocations of the
wrapped endpoint. -/
def CircuitBreaker.runCalls (cb : CircuitBreaker) :
    CBState → ℕ → List (ℕ × Bool) → CBState × ℕ
  | st, invoked, [] => (st, invoked)
  | st, invoked, (now, succ) :: rest =>
      let r := cb.call st now succ
      cb.runCalls r.2.2 (invoked + if r.1 then 1 else 0) rest

theorem runCalls_consecutive_failures (cb : CircuitBreaker) (t : ℕ) :
    ∀ k f i, 1 ≤ k → f + k = cb.threshold →
      cb.runCalls (.closed f) i (List.replicate k (t, false)) = (.opened t, i + k) := by
  intro k
  induction k with
  | zero => intro f i h1 _; omega
  | succ k ih =>
    intro f i _ h2
    rw [List.replicate_succ]
    by_cases hk : k = 0
    · subst hk
      have hth : cb.threshold ≤ f + 1 := by omega
      simp [CircuitBreaker.runCalls, CircuitBreaker.call, CircuitBreaker.beforeCall,
        CircuitBreaker.afterCall, hth]
    · have hth : ¬ cb.threshold ≤ f + 1 := by omega
      have step : cb.runCalls (.closed f) i (List.replicate (k + 1) (t, false))
          = cb.runCalls (.closed (f + 1)) (i + 1) (List.replicate k (t, false)) := by
        rw [List.replicate_succ]
        simp [CircuitBreaker.runCalls, CircuitBreaker.call, CircuitBreaker.beforeCall,
          CircuitBreaker.afterCall, hth]
      rw [List.replicate_succ] at step
      rw [step, ih (f + 1) (i + 1) (by omega) (by omega)]
      ac_rfl

/-- C7: the breaker is the three-state machine of the spec. Starting
closed, calls pass through and failures are counted; after N = threshold
consecutive failures of the wrapped endpoint the breaker is open; while
open and before the timeout, a call fails immediately without invoking
the wrapped endpoint (the invocation count does not increase); once the
timeout has elapsed exactly one trial call is admitted (half-open) — a
competitor arriving during the trial is rejected — and the trial's
success returns the breaker to closed while its failure returns it to
open. -/
theorem C7_circuit_breaker (cb : CircuitBreaker) (hN : 1 ≤ cb.threshold) :
    (∀ f now, f + 1 < cb.threshold →
        cb.call (.closed f) now false
          = (true, .error ⟨"inner failure", false⟩, .closed (f + 1)))
    ∧ (∀ f now, cb.call (.closed f) now true = (true, .ok (), .closed 0))
    ∧ (∀ t, cb.runCalls (.closed 0) 0 (List.replicate cb.threshold (t, false))
          = (.opened t, cb.threshold))
    ∧ (∀ t now b, now < t + cb.timeout →
        cb.call (.opened t) now b
          = (false, .error ⟨"circuit breaker is open", false⟩, .opened t))
    ∧ (∀ t now b i rest, now < t + cb.timeout →
        cb.runCalls (.opened t) i ((now, b) :: rest) = cb.runCalls (.opened t) i rest)
    ∧ (∀ t now, t + cb.timeout ≤ now → cb.beforeCall (.opened t) now = (true, .halfOpen))
    ∧ (∀ now, cb.beforeCall .halfOpen now = (false, .halfOpen))
    ∧ (∀ t now, t + cb.timeout ≤ now →
        cb.call (.opened t) now true = (true, .ok (), .closed 0))
    ∧ (∀ t now, t + cb.timeout ≤ now →
        cb.call (.opened t) now false
          = (true, .error ⟨"inner failure", false⟩, .opened now)) := by
  refine ⟨?_, ?_, ?_, ?_, ?_, ?_, ?_, ?_, ?_⟩
  · intro f now hf
    have hth : ¬ cb.threshold ≤ f + 1 := by omega
    simp [CircuitBreaker.call, CircuitBreaker.beforeCall, CircuitBreaker.afterCall, hth]
  · intro f now
    simp [CircuitBreaker.call, CircuitBreaker.beforeCall, CircuitBreaker.afterCall]
  · intro t
    have := runCalls_consecutive_failures cb t cb.threshold 0 0 hN (by omega)
    simpa using this
  · intro t now b h
    have hlt : ¬ t + cb.timeout ≤ now := by omega
    simp [CircuitBreaker.call, CircuitBreaker.beforeCall, hlt]
  · intro t now b i rest h
    have hlt : ¬ t + cb.timeout ≤ now := by omega
    simp [CircuitBreaker.runCalls, CircuitBreaker.call, CircuitBreaker.beforeCall, hlt]
  · intro t now h
    simp [CircuitBreaker.beforeCall, h]
  · intro now
    simp [CircuitBreaker.beforeCall]
  · intro t now h
    simp [CircuitBreaker.call, CircuitBreaker.beforeCall, CircuitBreaker.afterCall, h]
  · intro t now h
    simp [CircuitBreaker.call, CircuitBreaker.beforeCall, CircuitBreaker.afterCall, h]

/-- Witness for C7 at the concrete breaker with threshold 6 and
timeout 10: six consecutive failures starting at the closed state trip
it to open, with six wrapped-endpoint invocations. -/
theorem C7_circuit_breaker_witness :
    1 ≤ (⟨6, 10⟩ : CircuitBreaker).threshold
    ∧ (⟨6, 10⟩ : CircuitBreaker).runCalls (.closed 0) 0 (List.replicate 6 (3, false))
        = (.opened 3, 6) :=
  ⟨by decide, (C7_circuit_breaker ⟨6, 10⟩ (by decide)).2.2.1 3⟩
